import Mathlib

/-!
# Verification of the Billing-AI core orchestration logic

Shallow embedding of the core billing/reminder logic of the Billing-AI
repository:

* the validation combiner and its AI-failure fallbacks
  (`backend/modules/ai/validation/validator.js`, class `AIValidator`);
* the reminder cadence decision and the reminder cycle
  (`backend/modules/scheduler/reminder-scheduler.js`, class `ReminderScheduler`,
  and `backend/modules/email/mailer.js`, class `Mailer`);
* the billing calculator and next-billing-date advance
  (`backend/modules/scheduler/reminder-scheduler.js`, class `BillingScheduler`);
* the per-contract billing pipeline and the re-entrancy-guarded billing cycle.

Conventions: JavaScript numbers that the database schema constrains to
integers (anomaly and similarity scores, `INTEGER` columns) are modelled as
`Int`; monetary values (`DECIMAL(10,2)` columns) are modelled as `Rat`, with
`Number.prototype.toFixed(2)` modelled as exact round-half-up to two decimal
places; JavaScript `Date` values are modelled as proleptic-Gregorian civil
dates with the ECMAScript day/month overflow normalization made explicit.
Fallible collaborator calls (database, PDF, email) are modelled by boolean
outcome parameters: `true` means the awaited call resolved, `false` means it
rejected (threw).
-/

/-- Invoice AI-validation status, mirroring the `ai_validation_status`
CHECK constraint (`pending | validated | flagged | failed`) in the schema. -/
inductive VStatus where
  | pending
  | validated
  | flagged
  | failed
deriving DecidableEq, Repr

/-- Invoice status, mirroring the `status` CHECK constraint
(`pending | validated | sent | paid | overdue | cancelled`) in the schema. -/
inductive IStatus where
  | pending
  | validated
  | sent
  | paid
  | overdue
  | cancelled
deriving DecidableEq, Repr

/-- Contract billing frequency, mirroring the `billing_frequency` CHECK
constraint (`monthly | quarterly | yearly | one-time`). -/
inductive BillingFrequency where
  | monthly
  | quarterly
  | yearly
  | oneTime
deriving DecidableEq, Repr

/-- A content-correctness verdict as produced by `AIValidator.performValidation`
(either parsed from the AI response or the fixed fallback object). -/
structure CorrectnessVerdict where
  validation_status : VStatus
  anomaly_score : Int
  flags : List String
  suggestions : String
  confidence : Int
deriving DecidableEq, Repr

/-- A duplicate-check verdict as produced by `AIValidator.checkDuplicates`.
`duplicate_of` is kept as the string that the flag template interpolates. -/
structure DuplicateCheck where
  is_duplicate : Bool
  duplicate_of : String
  similarity_score : Int
  explanation : String
deriving DecidableEq, Repr

/-- The combined verdict returned by `AIValidator.combineResults`. -/
structure FinalVerdict where
  validation_status : VStatus
  anomaly_score : Int
  flags : List String
  suggestions : String
  confidence : Int
  duplicate_check : DuplicateCheck
deriving DecidableEq, Repr

/-- `AIValidator.combineResults` (validator.js): start from the correctness
verdict, escalate on a duplicate (force `flagged`, score `max score 90`,
append a flag naming the duplicate and the explanation to suggestions), else
on similarity above 70 append a flag and raise the score to `max score 60`;
then re-derive the final status from the score (≥ 70 → `flagged`,
≥ 40 → `validated` with warnings, else `validated`).  The JS
`validationResult.confidence || 80` treats a 0 confidence as falsy. -/
def combineResults (validationResult : CorrectnessVerdict)
    (duplicateCheck : DuplicateCheck) : FinalVerdict :=
  let finalStatus := validationResult.validation_status
  let finalScore := validationResult.anomaly_score
  let finalFlags := validationResult.flags
  let finalSuggestions := validationResult.suggestions
  let (finalStatus, finalScore, finalFlags, finalSuggestions) :=
    if duplicateCheck.is_duplicate then
      (VStatus.flagged, max finalScore 90,
       finalFlags ++
         ["Possible duplicate of invoice " ++ duplicateCheck.duplicate_of],
       finalSuggestions ++
         " DUPLICATE ALERT: This invoice appears to be a duplicate. " ++
           duplicateCheck.explanation)
    else if duplicateCheck.similarity_score > 70 then
      (finalStatus, max finalScore 60,
       finalFlags ++
         ["High similarity (" ++ toString duplicateCheck.similarity_score ++
           "%) to recent invoices"],
       finalSuggestions)
    else
      (finalStatus, finalScore, finalFlags, finalSuggestions)
  let finalStatus :=
    if finalScore ≥ 70 then VStatus.flagged
    else if finalScore ≥ 40 then VStatus.validated
    else VStatus.validated
  { validation_status := finalStatus
    anomaly_score := finalScore
    flags := finalFlags
    suggestions := finalSuggestions
    confidence :=
      if validationResult.confidence = 0 then 80 else validationResult.confidence
    duplicate_check := duplicateCheck }

/-- The fixed fallback verdict returned by the catch branch of
`AIValidator.performValidation` when the AI call throws or its response is
malformed JSON. -/
def performValidationFallback : CorrectnessVerdict :=
  { validation_status := VStatus.failed
    anomaly_score := 100
    flags := ["AI validation failed - manual review required"]
    suggestions := "Please manually review this invoice due to AI validation error."
    confidence := 0 }

/-- The fixed fallback returned by the catch branch of
`AIValidator.checkDuplicates` when the duplicate-check call fails. -/
def checkDuplicatesFallback : DuplicateCheck :=
  { is_duplicate := false
    duplicate_of := "null"
    similarity_score := 0
    explanation := "Duplicate check failed - proceeding with caution" }

/-- The email decision of `BillingScheduler.processContract` step 6: the
invoice email is sent exactly when the combined verdict's status is
`validated`. -/
def shouldEmailInvoice (result : FinalVerdict) : Bool :=
  result.validation_status = VStatus.validated

/-- `ReminderScheduler.shouldSendReminder` (reminder-scheduler.js): the
day-based reminder cadence decision. -/
def shouldSendReminder (daysOverdue : Int) : Bool :=
  if daysOverdue ≤ 0 then false
  else if daysOverdue ≤ 7 then daysOverdue = 3 ∨ daysOverdue = 7
  else if daysOverdue ≤ 14 then daysOverdue = 10 ∨ daysOverdue = 14
  else if daysOverdue ≤ 30 then daysOverdue % 5 = 0
  else daysOverdue % 7 = 0

/-! ## Civil dates and the ECMAScript Date normalization

`BillingScheduler` manipulates dates through the JavaScript `Date` mutators
`setDate`, `setMonth` and `setFullYear`, whose out-of-range arguments roll
over into adjacent months/years (ECMAScript `MakeDay`).  We model a date as a
proleptic-Gregorian civil triple and make the day-overflow normalization an
explicit carry loop. -/

/-- A civil date: year, month (1–12 when in range), day of month. -/
structure CivilDate where
  y : Int
  m : Nat
  d : Nat
deriving DecidableEq, Repr

/-- Gregorian leap-year test (as in ECMAScript `DaysInYear`). -/
def isLeap (y : Int) : Bool :=
  (y % 4 = 0 ∧ y % 100 ≠ 0) ∨ y % 400 = 0

/-- Number of days in a month (ECMAScript `DaysInMonth`); out-of-range months
get the junk value 31, which is never reached from in-range inputs. -/
def daysInMonth (y : Int) (m : Nat) : Nat :=
  if m = 2 then (if isLeap y then 29 else 28)
  else if m = 4 ∨ m = 6 ∨ m = 9 ∨ m = 11 then 30
  else 31

theorem daysInMonth_pos (y : Int) (m : Nat) : 1 ≤ daysInMonth y m := by
  unfold daysInMonth
  split
  · split <;> omega
  · split <;> omega

theorem daysInMonth_ge_28 (y : Int) (m : Nat) : 28 ≤ daysInMonth y m := by
  unfold daysInMonth
  split
  · split <;> omega
  · split <;> omega

theorem daysInMonth_le_31 (y : Int) (m : Nat) : daysInMonth y m ≤ 31 := by
  unfold daysInMonth
  split
  · split <;> omega
  · split <;> omega

/-- Normalize a day count that may exceed the month length by carrying whole
months (the effect `Date.prototype.setDate` / `setMonth` achieve through
`MakeDay` timestamp arithmetic). -/
def normDays (y : Int) (m : Nat) (d : Nat) : CivilDate :=
  if d ≤ daysInMonth y m then ⟨y, m, d⟩
  else if m = 12 then normDays (y + 1) 1 (d - daysInMonth y m)
  else normDays y (m + 1) (d - daysInMonth y m)
termination_by d
decreasing_by
  all_goals
    have h1 := daysInMonth_pos y m
    omega

/-- The calendar successor of a civil date (specification-side notion of
"plus one day"). -/
def nextDay (dt : CivilDate) : CivilDate :=
  if dt.d < daysInMonth dt.y dt.m then ⟨dt.y, dt.m, dt.d + 1⟩
  else if dt.m = 12 then ⟨dt.y + 1, 1, 1⟩
  else ⟨dt.y, dt.m + 1, 1⟩

/-- A date is valid when its month and day are in calendar range. -/
def ValidDate (dt : CivilDate) : Prop :=
  1 ≤ dt.m ∧ dt.m ≤ 12 ∧ 1 ≤ dt.d ∧ dt.d ≤ daysInMonth dt.y dt.m

/-- `JS new Date(y, m0, d).setMonth(m0 + k)`: advance the month index by `k`,
carrying whole years, then normalize a day-of-month that the shorter target
month cannot hold (months here are 1-based). -/
def addMonthsJS (dt : CivilDate) (k : Nat) : CivilDate :=
  let mm := dt.m + k
  normDays (dt.y + ((mm - 1) / 12 : Nat)) ((mm - 1) % 12 + 1) dt.d

/-- `JS d.setFullYear(d.getFullYear() + 1)`: same month and day in the next
year, with Feb 29 of a leap year normalizing to Mar 1. -/
def addYearJS (dt : CivilDate) : CivilDate :=
  normDays (dt.y + 1) dt.m dt.d

/-- `BillingScheduler.calculateNextBillingDate` (reminder-scheduler.js):
advance the current next-billing date by one interval according to the
billing frequency; `one-time` contracts get no next date.  (The JS `default`
branch also adds one month, but the schema's CHECK constraint makes it
unreachable.) -/
def calculateNextBillingDate (currentDate : CivilDate)
    (frequency : BillingFrequency) : Option CivilDate :=
  match frequency with
  | BillingFrequency.monthly => some (addMonthsJS currentDate 1)
  | BillingFrequency.quarterly => some (addMonthsJS currentDate 3)
  | BillingFrequency.yearly => some (addYearJS currentDate)
  | BillingFrequency.oneTime => none

/-- Linear month index of a civil date, used to state "exactly one month
apart". -/
def monthIdx (dt : CivilDate) : Int :=
  12 * dt.y + dt.m

theorem normDays_of_le (y : Int) (m : Nat) (d : Nat)
    (h : d ≤ daysInMonth y m) : normDays y m d = ⟨y, m, d⟩ := by
  rw [normDays, if_pos h]

theorem normDays_succ (d : Nat) (y : Int) (m : Nat) (hd : 1 ≤ d) :
    normDays y m (d + 1) = nextDay (normDays y m d) := by
  induction d using Nat.strong_induction_on generalizing y m with
  | _ d ih =>
    by_cases h1 : d + 1 ≤ daysInMonth y m
    · have h0 : d ≤ daysInMonth y m := by omega
      rw [normDays, if_pos h1, normDays_of_le y m d h0, nextDay]
      simp only
      rw [if_pos (by omega : d < daysInMonth y m)]
    · by_cases h0 : d ≤ daysInMonth y m
      · rw [normDays, if_neg h1, normDays_of_le y m d h0, nextDay]
        simp only
        rw [if_neg (by omega : ¬ d < daysInMonth y m)]
        have hsub : d + 1 - daysInMonth y m = 1 := by omega
        by_cases hm : m = 12
        · rw [if_pos hm, if_pos hm, hsub,
            normDays_of_le _ _ _ (by have := daysInMonth_pos (y + 1) 1; omega)]
        · rw [if_neg hm, if_neg hm, hsub,
            normDays_of_le _ _ _ (by have := daysInMonth_pos y (m + 1); omega)]
      · have hpos := daysInMonth_pos y m
        have hsub : d + 1 - daysInMonth y m = (d - daysInMonth y m) + 1 := by
          omega
        have hlt : d - daysInMonth y m < d := by omega
        have hrec : 1 ≤ d - daysInMonth y m := by omega
        rw [normDays, if_neg h1]
        conv_rhs => rw [normDays, if_neg h0]
        by_cases hm : m = 12
        · rw [if_pos hm, if_pos hm, hsub, ih _ hlt _ _ hrec]
        · rw [if_neg hm, if_neg hm, hsub, ih _ hlt _ _ hrec]

theorem normDays_add (y : Int) (m : Nat) (d : Nat) (hd : 1 ≤ d) (k : Nat) :
    normDays y m (d + k) = nextDay^[k] (normDays y m d) := by
  induction k with
  | zero => simp
  | succ k ih =>
    have hrw : d + (k + 1) = (d + k) + 1 := by omega
    rw [hrw, normDays_succ (d + k) y m (by omega), ih,
      Function.iterate_succ_apply']

/-! ## The billing calculator -/

/-- `x.toFixed(2)` on an exact decimal value: round half up to two decimal
places. -/
def round2 (x : Rat) : Rat :=
  (⌊x * 100 + 1 / 2⌋ : Rat) / 100

/-- The contract fields the billing calculator and the next-billing-date
advance read (`contracts` table: `amount DECIMAL(10,2)`,
`tax_rate DECIMAL(5,2)`, `discount_percentage DECIMAL(5,2)`,
`billing_frequency`, `next_billing_date`). -/
structure ContractTerms where
  amount : Rat
  tax_rate : Rat
  discount_percentage : Rat
  billing_frequency : BillingFrequency
  next_billing_date : CivilDate
deriving DecidableEq, Repr

/-- The invoice fields `BillingScheduler.calculateInvoiceAmounts` computes. -/
structure InvoiceAmounts where
  subtotal : Rat
  tax_amount : Rat
  discount_amount : Rat
  total_amount : Rat
  issue_date : CivilDate
  due_date : CivilDate
  status : IStatus
deriving DecidableEq, Repr

/-- `BillingScheduler.calculateInvoiceAmounts` (reminder-scheduler.js):
subtotal is the contract amount, tax and discount are percentages of it,
total is subtotal plus tax minus discount; each monetary field goes through
`toFixed(2)`; the issue date is today and the due date is
`setDate(getDate() + 30)`; the new invoice starts as `pending`. -/
def calculateInvoiceAmounts (contract : ContractTerms)
    (today : CivilDate) : InvoiceAmounts :=
  let subtotal := contract.amount
  let taxAmount := subtotal * contract.tax_rate / 100
  let discountAmount := subtotal * contract.discount_percentage / 100
  let totalAmount := subtotal + taxAmount - discountAmount
  { subtotal := round2 subtotal
    tax_amount := round2 taxAmount
    discount_amount := round2 discountAmount
    total_amount := round2 totalAmount
    issue_date := today
    due_date := normDays today.y today.m (today.d + 30)
    status := IStatus.pending }

/-! ## The per-contract billing pipeline and the billing cycle

`BillingScheduler.processContract` awaits a fixed sequence of fallible
collaborator calls; any rejection propagates to the per-contract `catch` in
`executeBillingCycle`.  Each awaited call is modelled by a boolean outcome
(`true` = resolved, `false` = threw); the verdict the validator produces when
it resolves is a further parameter. -/

/-- Outcomes of the fallible collaborator calls `processContract` awaits, in
source order, plus the combined verdict status `validateInvoice` reports when
it resolves. -/
structure ContractWorld where
  createOk : Bool
  auditOk : Bool
  pdfOk : Bool
  uploadOk : Bool
  validateOk : Bool
  verdictStatus : VStatus
  emailOk : Bool
  updateDateOk : Bool
deriving DecidableEq, Repr

/-- Observable effect of one `processContract` run. -/
structure PipelineResult where
  invoiceCreated : Bool
  emailSent : Bool
  nextDateAdvanced : Bool
  threw : Bool
deriving DecidableEq, Repr

/-- `BillingScheduler.processContract` (reminder-scheduler.js): calculate
amounts, create the invoice, audit-log, render the PDF, upload it, validate;
email only when the combined verdict is `validated`; finally advance the
contract's next billing date.  A rejection at any step aborts the remaining
steps (there is no per-step catch inside `processContract`). -/
def processContract (w : ContractWorld) : PipelineResult :=
  if ¬ w.createOk then
    { invoiceCreated := false, emailSent := false
      nextDateAdvanced := false, threw := true }
  else if ¬ w.auditOk then
    { invoiceCreated := true, emailSent := false
      nextDateAdvanced := false, threw := true }
  else if ¬ w.pdfOk then
    { invoiceCreated := true, emailSent := false
      nextDateAdvanced := false, threw := true }
  else if ¬ w.uploadOk then
    { invoiceCreated := true, emailSent := false
      nextDateAdvanced := false, threw := true }
  else if ¬ w.validateOk then
    { invoiceCreated := true, emailSent := false
      nextDateAdvanced := false, threw := true }
  else if w.verdictStatus = VStatus.validated then
    if ¬ w.emailOk then
      { invoiceCreated := true, emailSent := false
        nextDateAdvanced := false, threw := true }
    else if ¬ w.updateDateOk then
      { invoiceCreated := true, emailSent := true
        nextDateAdvanced := false, threw := true }
    else
      { invoiceCreated := true, emailSent := true
        nextDateAdvanced := true, threw := false }
  else if ¬ w.updateDateOk then
    { invoiceCreated := true, emailSent := false
      nextDateAdvanced := false, threw := true }
  else
    { invoiceCreated := true, emailSent := false
      nextDateAdvanced := true, threw := false }

/-- The scheduler's re-entrancy guard state (`this.isRunning`). -/
structure BillingState where
  isRunning : Bool
deriving DecidableEq, Repr

/-- Environment of one `executeBillingCycle` invocation: whether the
due-contracts query resolves, and the per-contract collaborator outcomes of
the contracts it returns. -/
structure CycleWorld where
  findDueOk : Bool
  contracts : List ContractWorld
deriving DecidableEq, Repr

/-- Number of invoices a list of per-contract runs leaves created (invoices
are never rolled back, so a contract that fails after `Invoice.create` still
counts). -/
def invoicesCreated (contracts : List ContractWorld) : Nat :=
  (contracts.filter (fun w => (processContract w).invoiceCreated)).length

/-- `BillingScheduler.executeBillingCycle` (reminder-scheduler.js): if the
guard is set, log and return without touching anything; otherwise set the
guard, query due contracts (a query rejection is caught by the outer
`catch`), process each contract inside a per-contract `try/catch`, and clear
the guard in the `finally` on every path.  Returns the post-call guard state
and how many invoices the call created. -/
def executeBillingCycle (s : BillingState) (w : CycleWorld) :
    BillingState × Nat :=
  if s.isRunning then (s, 0)
  else if ¬ w.findDueOk then (⟨false⟩, 0)
  else (⟨false⟩, invoicesCreated w.contracts)

/-! ## The reminder cycle as a transition system on one invoice

`ReminderScheduler.executeReminderCycle` handles each overdue invoice
independently, so how many reminders an invoice can ever receive is stated on
the trace of a single invoice across a sequence of daily cycles. -/

/-- The invoice fields the reminder cycle reads and writes. -/
structure RInvoice where
  status : IStatus
  due_date : Int
deriving DecidableEq, Repr

/-- `Invoice.findOverdue` (models.js) membership test: status `sent` or
`pending` and `due_date < CURRENT_DATE`. -/
def findOverdueSelects (today : Int) (inv : RInvoice) : Bool :=
  (inv.status = IStatus.sent ∨ inv.status = IStatus.pending) ∧
    inv.due_date < today

/-- `Mailer.sendReminderEmail` (mailer.js): skip when not overdue; otherwise
await the email transport (`emailOk`) and then — unless the status already is
`overdue` — await `Invoice.updateStatus(id, overdue)` (`updateOk`).  The two
awaits fail independently: a transport rejection leaves the invoice unchanged
with no email delivered, while a status-update rejection happens AFTER the
email went out, so the email is delivered but the invoice stays
`sent`/`pending`; either rejection is rethrown and caught at the per-invoice
boundary of the cycle.  (The subsequent audit-log await can also reject, but
that alters neither the invoice nor the delivery, so it has no observable
effect here.)  Returns the updated invoice and whether a reminder email was
delivered. -/
def sendReminderEmail (today : Int) (emailOk updateOk : Bool)
    (inv : RInvoice) : RInvoice × Bool :=
  let daysOverdue := today - inv.due_date
  if daysOverdue ≤ 0 then (inv, false)
  else if emailOk then
    if inv.status ≠ IStatus.overdue then
      if updateOk then ({ inv with status := IStatus.overdue }, true)
      else (inv, true)
    else (inv, true)
  else (inv, false)

/-- One reminder cycle's effect on one invoice
(`ReminderScheduler.executeReminderCycle` + `processOverdueInvoice`): the
invoice is only touched when the overdue query returns it, and a reminder is
only sent when the cadence policy fires for its `days_overdue`. -/
def reminderCycleStep (today : Int) (emailOk updateOk : Bool)
    (inv : RInvoice) : RInvoice × Bool :=
  if findOverdueSelects today inv then
    if shouldSendReminder (today - inv.due_date) then
      sendReminderEmail today emailOk updateOk inv
    else (inv, false)
  else (inv, false)

/-- Run a sequence of reminder cycles (each with its date, email-transport
outcome and status-update outcome) over one invoice, counting the reminder
emails that were delivered. -/
def runReminderCycles (cycles : List (Int × Bool × Bool)) (inv : RInvoice) :
    RInvoice × Nat :=
  match cycles with
  | [] => (inv, 0)
  | (today, emailOk, updateOk) :: rest =>
    let (inv1, sent) := reminderCycleStep today emailOk updateOk inv
    let (inv2, n) := runReminderCycles rest inv1
    (inv2, (if sent then 1 else 0) + n)

/-- Advancing a valid date with day-of-month at most 28 by one JS month keeps
the day and moves to the immediately following calendar month. -/
theorem addMonthsJS_one (y : Int) (m d : Nat) (h1 : 1 ≤ m) (h2 : m ≤ 12)
    (h3 : d ≤ 28) :
    addMonthsJS ⟨y, m, d⟩ 1 =
      if m = 12 then ⟨y + 1, 1, d⟩ else ⟨y, m + 1, d⟩ := by
  unfold addMonthsJS
  by_cases hm : m = 12
  · subst hm
    rw [if_pos rfl]
    show normDays (y + ((13 - 1) / 12 : Nat)) ((13 - 1) % 12 + 1) d = _
    norm_num
    exact normDays_of_le _ _ _ (le_trans h3 (daysInMonth_ge_28 (y + 1) 1))
  · rw [if_neg hm]
    show normDays (y + ((m + 1 - 1) / 12 : Nat)) ((m + 1 - 1) % 12 + 1) d = _
    have hdiv : (m + 1 - 1) / 12 = 0 := by omega
    have hmod : (m + 1 - 1) % 12 + 1 = m + 1 := by omega
    rw [hdiv, hmod]
    norm_num
    exact normDays_of_le _ _ _ (le_trans h3 (daysInMonth_ge_28 y (m + 1)))

/-! ## Claims -/

/-- C1 counterexample: with every collaborator resolving except the invoice
email (verdict `validated`, email transport throws), `processContract`
aborts between the email step and the next-billing-date step: the created
invoice stays, but `next_billing_date` is NOT advanced — contradicting the
claim that it has still been advanced. -/
theorem processContract_email_failure_no_advance :
    (processContract
        { createOk := true, auditOk := true, pdfOk := true, uploadOk := true
          validateOk := true, verdictStatus := VStatus.validated
          emailOk := false, updateDateOk := true }).invoiceCreated = true ∧
    (processContract
        { createOk := true, auditOk := true, pdfOk := true, uploadOk := true
          validateOk := true, verdictStatus := VStatus.validated
          emailOk := false, updateDateOk := true }).nextDateAdvanced = false := by
  decide

/-- C1 (amended): the created invoice is never rolled back, and for a due
contract whose pipeline steps up to validation all resolve,
`next_billing_date` is advanced for every validation outcome (`validated`,
`flagged`, or `failed`) provided the terminal steps do not throw — but if the
email send throws for a `validated` invoice, the per-contract processing
aborts before step 7, so the invoice stays created while `next_billing_date`
is NOT advanced. -/
theorem processContract_advance_policy (w : ContractWorld)
    (hc : w.createOk = true) (ha : w.auditOk = true) (hp : w.pdfOk = true)
    (hu : w.uploadOk = true) (hv : w.validateOk = true)
    (hd : w.updateDateOk = true) :
    ((w.verdictStatus = VStatus.validated → w.emailOk = true) →
      (processContract w).nextDateAdvanced = true) ∧
    (w.verdictStatus = VStatus.validated → w.emailOk = false →
      (processContract w).invoiceCreated = true ∧
        (processContract w).nextDateAdvanced = false) := by
  unfold processContract
  constructor
  · intro hmail
    by_cases hval : w.verdictStatus = VStatus.validated
    · simp [hc, ha, hp, hu, hv, hd, hval, hmail hval]
    · simp [hc, ha, hp, hu, hv, hd, hval]
  · intro hval hmail
    simp [hc, ha, hp, hu, hv, hd, hval, hmail]

/-- Witness for C1 (amended) at a concrete flagged contract: all steps
resolve, the verdict is `flagged`, and the date is advanced. -/
theorem processContract_advance_policy_witness :
    (processContract
        { createOk := true, auditOk := true, pdfOk := true, uploadOk := true
          validateOk := true, verdictStatus := VStatus.flagged
          emailOk := true, updateDateOk := true }).nextDateAdvanced = true :=
  (processContract_advance_policy
      { createOk := true, auditOk := true, pdfOk := true, uploadOk := true
        validateOk := true, verdictStatus := VStatus.flagged
        emailOk := true, updateDateOk := true }
      rfl rfl rfl rfl rfl rfl).1 (by intro h; cases h)

/-- C2 counterexample: when the AI correctness call fails, the final combined
verdict recorded for the invoice does not have status `failed`: the fallback
score of 100 makes the score-based re-derivation in `combineResults`
overwrite the fallback's `failed` with `flagged`. -/
theorem combineResults_fallback_not_failed :
    (combineResults performValidationFallback
        checkDuplicatesFallback).validation_status ≠ VStatus.failed := by
  decide

/-- C2 (amended): if the AI correctness collaborator throws or returns
malformed JSON, the substituted fallback correctness verdict has status
`failed` and anomaly score 100, and for every duplicate-check result the
final combined verdict keeps anomaly score 100 but has status `flagged`
(score 100 ≥ 70 re-derives the status), and the billing cycle does not email
that invoice. -/
theorem combineResults_fallback_flagged_not_emailed (d : DuplicateCheck) :
    performValidationFallback.validation_status = VStatus.failed ∧
    performValidationFallback.anomaly_score = 100 ∧
    (combineResults performValidationFallback d).anomaly_score = 100 ∧
    (combineResults performValidationFallback d).validation_status
      = VStatus.flagged ∧
    shouldEmailInvoice (combineResults performValidationFallback d) = false := by
  refine ⟨rfl, rfl, ?_⟩
  unfold combineResults performValidationFallback shouldEmailInvoice
  split_ifs <;> simp_all

/-- C3 counterexample: 15 days overdue falls in the 15–30 band and is a
multiple of 5, so the reminder decision fires on day 15, which the claimed
set {3, 7, 10, 14, 20, 25, 30, 35} omits. -/
theorem shouldSendReminder_fires_on_day_15 :
    shouldSendReminder 15 = true ∧
      (15 : Int) ∉ ([3, 7, 10, 14, 20, 25, 30, 35] : List Int) := by
  decide

/-- C3 (amended): for `days_overdue` in 1..40 the reminder decision returns
true exactly on days {3, 7, 10, 14, 15, 20, 25, 30, 35} and false on every
other day in that range. -/
theorem shouldSendReminder_cadence (d : Int) (h1 : 1 ≤ d) (h2 : d ≤ 40) :
    shouldSendReminder d = true ↔
      d ∈ ([3, 7, 10, 14, 15, 20, 25, 30, 35] : List Int) := by
  interval_cases d <;> decide

/-- Witness for C3 (amended) at day 20. -/
theorem shouldSendReminder_cadence_witness :
    shouldSendReminder 20 = true ↔
      (20 : Int) ∈ ([3, 7, 10, 14, 15, 20, 25, 30, 35] : List Int) :=
  shouldSendReminder_cadence 20 (by decide) (by decide)

/-- C4: for every pair of collaborator verdicts, the combiner's final status
is `flagged` exactly when the final anomaly score is at least 70 and
`validated` exactly when it is below 70 (so scores in [40,70) yield
`validated`, with warnings visible only through the flags list). -/
theorem combineResults_status_iff_score (v : CorrectnessVerdict)
    (d : DuplicateCheck) :
    ((combineResults v d).validation_status = VStatus.flagged ↔
      70 ≤ (combineResults v d).anomaly_score) ∧
    ((combineResults v d).validation_status = VStatus.validated ↔
      (combineResults v d).anomaly_score < 70) := by
  unfold combineResults
  split_ifs <;> simp_all

/-- C5: whenever the duplicate-check verdict reports `is_duplicate`, the
combined verdict is `flagged` with anomaly score `max score 90` (hence at
least 90), a flag naming the duplicate appended, and the duplicate
explanation appended to the suggestions — for every correctness verdict,
including a clean `validated` one with score 0. -/
theorem combineResults_duplicate_escalation (v : CorrectnessVerdict)
    (d : DuplicateCheck) (hdup : d.is_duplicate = true) :
    (combineResults v d).validation_status = VStatus.flagged ∧
    (combineResults v d).anomaly_score = max v.anomaly_score 90 ∧
    90 ≤ (combineResults v d).anomaly_score ∧
    (combineResults v d).flags =
      v.flags ++ ["Possible duplicate of invoice " ++ d.duplicate_of] ∧
    (combineResults v d).suggestions =
      v.suggestions ++
        " DUPLICATE ALERT: This invoice appears to be a duplicate. " ++
          d.explanation := by
  unfold combineResults
  simp only [hdup, if_true]
  split_ifs <;> simp_all

/-- Witness for C5: a correctness verdict that is `validated` with score 0
combined with a positive duplicate report is `flagged` with score 90. -/
theorem combineResults_duplicate_escalation_witness :
    (combineResults
        { validation_status := VStatus.validated, anomaly_score := 0
          flags := [], suggestions := "", confidence := 95 }
        { is_duplicate := true, duplicate_of := "INV-20241108-0001"
          similarity_score := 95, explanation := "Same amount and customer" }
      ).validation_status = VStatus.flagged ∧
    (combineResults
        { validation_status := VStatus.validated, anomaly_score := 0
          flags := [], suggestions := "", confidence := 95 }
        { is_duplicate := true, duplicate_of := "INV-20241108-0001"
          similarity_score := 95, explanation := "Same amount and customer" }
      ).anomaly_score = max 0 90 :=
  ⟨(combineResults_duplicate_escalation _ _ rfl).1,
   (combineResults_duplicate_escalation _ _ rfl).2.1⟩

/-- C6: for every contract the billing calculator returns the subtotal, the
tax (`subtotal * tax_rate / 100`), the discount
(`subtotal * discount_percentage / 100`) and the total
(`subtotal + tax - discount`), each rounded to 2 decimal places; in
particular the contract `{amount: 5000, tax_rate: 8.5, discount: 0}` yields
`{subtotal: 5000.00, tax_amount: 425.00, discount_amount: 0.00,
total_amount: 5425.00}`. -/
theorem calculateInvoiceAmounts_formulas :
    (∀ (c : ContractTerms) (today : CivilDate),
      (calculateInvoiceAmounts c today).subtotal = round2 c.amount ∧
      (calculateInvoiceAmounts c today).tax_amount =
        round2 (c.amount * c.tax_rate / 100) ∧
      (calculateInvoiceAmounts c today).discount_amount =
        round2 (c.amount * c.discount_percentage / 100) ∧
      (calculateInvoiceAmounts c today).total_amount =
        round2 (c.amount + c.amount * c.tax_rate / 100 -
          c.amount * c.discount_percentage / 100)) ∧
    ((calculateInvoiceAmounts
        { amount := 5000, tax_rate := 8.5, discount_percentage := 0
          billing_frequency := BillingFrequency.monthly
          next_billing_date := ⟨2024, 12, 8⟩ } ⟨2024, 12, 8⟩).subtotal = 5000 ∧
     (calculateInvoiceAmounts
        { amount := 5000, tax_rate := 8.5, discount_percentage := 0
          billing_frequency := BillingFrequency.monthly
          next_billing_date := ⟨2024, 12, 8⟩ } ⟨2024, 12, 8⟩).tax_amount = 425 ∧
     (calculateInvoiceAmounts
        { amount := 5000, tax_rate := 8.5, discount_percentage := 0
          billing_frequency := BillingFrequency.monthly
          next_billing_date := ⟨2024, 12, 8⟩ } ⟨2024, 12, 8⟩).discount_amount
        = 0 ∧
     (calculateInvoiceAmounts
        { amount := 5000, tax_rate := 8.5, discount_percentage := 0
          billing_frequency := BillingFrequency.monthly
          next_billing_date := ⟨2024, 12, 8⟩ } ⟨2024, 12, 8⟩).total_amount
        = 5425) := by
  constructor
  · intro c today
    exact ⟨rfl, rfl, rfl, rfl⟩
  · refine ⟨?_, ?_, ?_, ?_⟩ <;>
      · show round2 _ = _
        rw [round2]
        norm_num

/-- C7: the invoice due date is the issue date plus exactly 30 calendar days,
for every contract (hence regardless of its billing frequency) and every
valid issue date. -/
theorem calculateInvoiceAmounts_due_date (c : ContractTerms)
    (today : CivilDate) (h : ValidDate today) :
    (calculateInvoiceAmounts c today).issue_date = today ∧
    (calculateInvoiceAmounts c today).due_date = nextDay^[30] today := by
  obtain ⟨h1, h2, h3, h4⟩ := h
  refine ⟨rfl, ?_⟩
  show normDays today.y today.m (today.d + 30) = _
  rw [normDays_add today.y today.m today.d h3 30, normDays_of_le _ _ _ h4]

/-- Witness for C7 at a one-time contract issued on 2024-12-08. -/
theorem calculateInvoiceAmounts_due_date_witness :
    (calculateInvoiceAmounts
        { amount := 100, tax_rate := 0, discount_percentage := 0
          billing_frequency := BillingFrequency.oneTime
          next_billing_date := ⟨2024, 12, 8⟩ } ⟨2024, 12, 8⟩).due_date =
      nextDay^[30] ⟨2024, 12, 8⟩ :=
  (calculateInvoiceAmounts_due_date _ ⟨2024, 12, 8⟩
      ⟨by decide, by decide, by decide, by decide⟩).2

/-- C8 counterexample: the monthly advance from 2025-01-31 lands on
2025-03-03 (January 31 plus one JS month is February 31, which normalizes
past short February), a date two month indices later with a different day —
not exactly one month apart. -/
theorem calculateNextBillingDate_jan31_drift :
    calculateNextBillingDate ⟨2025, 1, 31⟩ BillingFrequency.monthly
        = some ⟨2025, 3, 3⟩ ∧
    monthIdx ⟨2025, 3, 3⟩ = monthIdx ⟨2025, 1, 31⟩ + 2 ∧
    (⟨2025, 3, 3⟩ : CivilDate).d ≠ (⟨2025, 1, 31⟩ : CivilDate).d := by
  refine ⟨?_, by decide, by decide⟩
  show some (addMonthsJS ⟨2025, 1, 31⟩ 1) = _
  simp [addMonthsJS, normDays, daysInMonth, isLeap]

/-- C8 (amended): the next-billing-date advance maps monthly → +1 JS month,
quarterly → +3 JS months, yearly → +1 JS year and one-time → none; and for
every start date with day-of-month at most 28 (in particular days 1–28 of
any month), applying the monthly advance twice produces dates exactly one
month apart each time — same day of month, month index up by one — with no
drift from varying month lengths. -/
theorem calculateNextBillingDate_spec (dt : CivilDate) :
    (calculateNextBillingDate dt BillingFrequency.monthly
        = some (addMonthsJS dt 1) ∧
     calculateNextBillingDate dt BillingFrequency.quarterly
        = some (addMonthsJS dt 3) ∧
     calculateNextBillingDate dt BillingFrequency.yearly
        = some (addYearJS dt) ∧
     calculateNextBillingDate dt BillingFrequency.oneTime = none) ∧
    (1 ≤ dt.m → dt.m ≤ 12 → dt.d ≤ 28 →
      ∃ d1 d2,
        calculateNextBillingDate dt BillingFrequency.monthly = some d1 ∧
        calculateNextBillingDate d1 BillingFrequency.monthly = some d2 ∧
        d1.d = dt.d ∧ monthIdx d1 = monthIdx dt + 1 ∧
        d2.d = dt.d ∧ monthIdx d2 = monthIdx d1 + 1) := by
  refine ⟨⟨rfl, rfl, rfl, rfl⟩, ?_⟩
  intro h1 h2 h3
  obtain ⟨y, m, d⟩ := dt
  simp only at h1 h2 h3
  have step1 := addMonthsJS_one y m d h1 h2 h3
  by_cases hm : m = 12
  · subst hm
    rw [if_pos rfl] at step1
    have step2 := addMonthsJS_one (y + 1) 1 d (by omega) (by omega) h3
    rw [if_neg (by omega)] at step2
    exact ⟨⟨y + 1, 1, d⟩, ⟨y + 1, 2, d⟩,
      by simp [calculateNextBillingDate, step1],
      by simp [calculateNextBillingDate, step2],
      rfl, by simp [monthIdx]; omega, rfl, by simp [monthIdx]; omega⟩
  · rw [if_neg hm] at step1
    by_cases hm2 : m + 1 = 12
    · have step2 := addMonthsJS_one y (m + 1) d (by omega) (by omega) h3
      rw [if_pos hm2] at step2
      exact ⟨⟨y, m + 1, d⟩, ⟨y + 1, 1, d⟩,
        by simp [calculateNextBillingDate, step1],
        by simp [calculateNextBillingDate, step2],
        rfl, by simp [monthIdx]; omega, rfl, by simp [monthIdx]; omega⟩
    · have step2 := addMonthsJS_one y (m + 1) d (by omega) (by omega) h3
      rw [if_neg hm2] at step2
      exact ⟨⟨y, m + 1, d⟩, ⟨y, m + 2, d⟩,
        by simp [calculateNextBillingDate, step1],
        by simp [calculateNextBillingDate, step2],
        rfl, by simp [monthIdx]; omega, rfl, by simp [monthIdx]; omega⟩

/-- Witness for C8 (amended) from 2024-01-15: one month later is 2024-02-15
and two months later is 2024-03-15. -/
theorem calculateNextBillingDate_spec_witness :
    ∃ d1 d2,
      calculateNextBillingDate ⟨2024, 1, 15⟩ BillingFrequency.monthly
          = some d1 ∧
      calculateNextBillingDate d1 BillingFrequency.monthly = some d2 ∧
      d1.d = (⟨2024, 1, 15⟩ : CivilDate).d ∧
      monthIdx d1 = monthIdx ⟨2024, 1, 15⟩ + 1 ∧
      d2.d = (⟨2024, 1, 15⟩ : CivilDate).d ∧
      monthIdx d2 = monthIdx d1 + 1 :=
  (calculateNextBillingDate_spec ⟨2024, 1, 15⟩).2
    (by decide) (by decide) (by decide)

/-- C9: triggering the billing cycle while the guard flag is set is a no-op
that creates no invoices and does not change the scheduler state; and when
the guard is clear, every invocation — re-entrant skip, due-query failure,
empty day, or full run — ends with the guard cleared so the next trigger can
proceed. -/
theorem executeBillingCycle_guard (s : BillingState) (w : CycleWorld) :
    (s.isRunning = true → executeBillingCycle s w = (s, 0)) ∧
    (s.isRunning = false →
      (executeBillingCycle s w).1.isRunning = false) := by
  unfold executeBillingCycle
  constructor
  · intro h
    rw [if_pos h]
  · intro h
    rw [if_neg (by simp [h])]
    split_ifs <;> rfl

/-- Witness for C9: a re-entrant trigger during a running cycle is a no-op,
and a completed cycle with two due contracts leaves the guard cleared. -/
theorem executeBillingCycle_guard_witness :
    executeBillingCycle ⟨true⟩
        { findDueOk := true
          contracts := [{ createOk := true, auditOk := true, pdfOk := true
                          uploadOk := true, validateOk := true
                          verdictStatus := VStatus.validated
                          emailOk := true, updateDateOk := true }] }
      = (⟨true⟩, 0) ∧
    (executeBillingCycle ⟨false⟩
        { findDueOk := true
          contracts := [{ createOk := true, auditOk := true, pdfOk := true
                          uploadOk := true, validateOk := true
                          verdictStatus := VStatus.validated
                          emailOk := true, updateDateOk := true }] }).1.isRunning
      = false :=
  ⟨(executeBillingCycle_guard ⟨true⟩ _).1 rfl,
   (executeBillingCycle_guard ⟨false⟩ _).2 rfl⟩

/-- A reminder cycle leaves an `overdue` invoice untouched: the overdue query
only returns invoices with status `sent` or `pending`. -/
theorem reminderCycleStep_overdue (today : Int) (emailOk updateOk : Bool)
    (inv : RInvoice) (h : inv.status = IStatus.overdue) :
    reminderCycleStep today emailOk updateOk inv = (inv, false) := by
  unfold reminderCycleStep findOverdueSelects
  rw [if_neg]
  simp [h]

/-- No sequence of reminder cycles ever touches an `overdue` invoice. -/
theorem runReminderCycles_overdue (cycles : List (Int × Bool × Bool))
    (inv : RInvoice) (h : inv.status = IStatus.overdue) :
    runReminderCycles cycles inv = (inv, 0) := by
  induction cycles with
  | nil => rfl
  | cons c rest ih =>
    obtain ⟨today, emailOk, updateOk⟩ := c
    unfold runReminderCycles
    rw [reminderCycleStep_overdue today emailOk updateOk inv h]
    simp [ih]

/-- A cycle step that delivers a reminder AND whose status update resolves
leaves the invoice with status `overdue`. -/
theorem reminderCycleStep_sent_overdue (today : Int) (emailOk : Bool)
    (inv inv1 : RInvoice)
    (h : reminderCycleStep today emailOk true inv = (inv1, true)) :
    inv1.status = IStatus.overdue := by
  unfold reminderCycleStep sendReminderEmail findOverdueSelects at h
  simp only [] at h
  split_ifs at h <;> simp_all [shouldSendReminder]
  subst h
  rfl

/-- C10 counterexample: an invoice with status `sent` due on day 0; on day 14
the cadence fires, the email transport resolves, but the subsequent
`Invoice.updateStatus(id, overdue)` rejects — the reminder was delivered yet
the invoice stays `sent`, so the day-15 cycle selects it again and delivers a
second reminder.  Two reminders reach the customer, refuting at-most-one. -/
theorem runReminderCycles_second_reminder :
    (runReminderCycles [(14, true, false), (15, true, true)]
        { status := IStatus.sent, due_date := 0 }).2 = 2 := by
  decide

/-- C10 (amended): once a reminder email is delivered AND the following
status update resolves, the invoice's status becomes `overdue`, and since
the overdue query selects only `sent` or `pending` invoices, no later
reminder cycle returns it again — so across any sequence of scheduled
reminder cycles in which the status updates resolve (any dates, any
email-transport outcomes), an invoice receives at most one reminder,
independently of the cadence policy.  If a status update rejects after the
email went out, the invoice remains re-selectable and a later cadence day
can deliver another reminder. -/
theorem runReminderCycles_at_most_one (cycles : List (Int × Bool × Bool))
    (inv : RInvoice) (hupd : ∀ c ∈ cycles, c.2.2 = true) :
    (runReminderCycles cycles inv).2 ≤ 1 := by
  induction cycles generalizing inv with
  | nil => simp [runReminderCycles]
  | cons c rest ih =>
    obtain ⟨today, emailOk, updateOk⟩ := c
    have hc : updateOk = true := hupd _ (List.mem_cons_self _ _)
    have hrest : ∀ c ∈ rest, c.2.2 = true := fun c hm =>
      hupd c (List.mem_cons_of_mem _ hm)
    subst hc
    unfold runReminderCycles
    rcases hstep : reminderCycleStep today emailOk true inv with ⟨inv1, sent⟩
    cases sent
    · simpa using ih inv1 hrest
    · have hov := reminderCycleStep_sent_overdue today emailOk inv inv1 hstep
      simp [runReminderCycles_overdue rest inv1 hov]

/-- Witness for C10 (amended): the same two cadence days with both status
updates resolving deliver at most one reminder. -/
theorem runReminderCycles_at_most_one_witness :
    (runReminderCycles [(14, true, true), (15, true, true)]
        { status := IStatus.sent, due_date := 0 }).2 ≤ 1 :=
  runReminderCycles_at_most_one [(14, true, true), (15, true, true)]
    { status := IStatus.sent, due_date := 0 } (by decide)
